import Mathlib

/-!
Verification development for the RoadPrompt interactive prompt engine
(`roadprompt/prompt.py`).

The Python source is shallowly embedded: pure helpers become Lean
functions over `List Char` / `String`; each interactive loop body (one
read attempt) becomes a step function returning a `StepOutcome` that
records either the produced result or the diagnostic lines written
before the next read.  Python `float` values are modelled exactly as
decimal scaled integers (`Dec`), plus `inf`/`nan`; rounding of decimal
literals to binary doubles is abstracted away (no claim here depends on
it), and the textual rendering of numeric bounds inside messages is
abstracted by `decRepr`.
-/

namespace RoadPrompt

/-! ### Python string primitives -/

/-- Whitespace characters recognised by Python's `str.strip()` (ASCII part). -/
def pyIsSpace (c : Char) : Bool :=
  c = ' ' || c = '\t' || c = '\n' || c = '\r' || c = '\x0b' || c = '\x0c'

/-- `str.strip()` on a character list. -/
def pyStripList (cs : List Char) : List Char :=
  ((cs.dropWhile pyIsSpace).reverse.dropWhile pyIsSpace).reverse

/-- `str.strip()`. -/
def pyStrip (s : String) : String :=
  String.mk (pyStripList s.data)

/-- `str.lower()` (ASCII case mapping, which covers every input the
prompts compare against). -/
def pyLower (s : String) : String :=
  String.mk (s.data.map Char.toLower)

/-- `value.split(",")`: split at every comma, keeping empty fields. -/
def splitComma : List Char → List (List Char)
  | [] => [[]]
  | c :: cs =>
    let r := splitComma cs
    if c = ',' then [] :: r
    else
      match r with
      | g :: gs => (c :: g) :: gs
      | [] => [[c]]

/-- `value.endswith("\t")`. -/
def endsWithTab (s : String) : Bool :=
  match s.data.getLast? with
  | some c => c = '\t'
  | none => false

/-- `value.rstrip("\t")`: drop every trailing tab. -/
def rstripTab (s : String) : String :=
  String.mk ((s.data.reverse.dropWhile (fun c => c = '\t')).reverse)

/-- `s.startswith(p)` on character lists. -/
def pyStartsWith (p s : List Char) : Bool :=
  List.isPrefixOf p s

/-- `", ".join(l)`. -/
def joinComma : List String → String
  | [] => ""
  | [s] => s
  | s :: rest => s ++ ", " ++ joinComma rest

/-! ### Python `int(...)` on strings -/

/-- Digit run with single underscores allowed between digits
(`acc` carries the value of the digits already consumed). -/
def digitsCore : Nat → List Char → Option Nat
  | acc, [] => some acc
  | acc, c :: cs =>
    if c.isDigit then digitsCore (acc * 10 + (c.toNat - 48)) cs
    else if c = '_' then
      match cs with
      | d :: _ => if d.isDigit then digitsCore acc cs else none
      | [] => none
    else none

/-- Parse a whole character list as a digit run (Python digit grammar:
nonempty, starts with a digit, underscores only between digits). -/
def parseDigits : List Char → Option Nat
  | [] => none
  | c :: cs => if c.isDigit then digitsCore (c.toNat - 48) cs else none

/-- `int(s)` for decimal string input: surrounding whitespace stripped,
one optional sign, then digits. `none` models a raised `ValueError`. -/
def pyIntParseL (cs : List Char) : Option Int :=
  match pyStripList cs with
  | '+' :: rest => (parseDigits rest).map (fun n => (n : Int))
  | '-' :: rest => (parseDigits rest).map (fun n => -(n : Int))
  | rest => (parseDigits rest).map (fun n => (n : Int))

/-! ### Python `float(...)` on strings -/

/-- Exact decimal number: `man * 10 ^ exp`. -/
structure Dec where
  man : Int
  exp : Int
  deriving Repr, DecidableEq

/-- Result of a successful `float(...)` call. -/
inductive PyFloat where
  | finite (d : Dec)
  | inf (neg : Bool)
  | nan
  deriving Repr, DecidableEq

/-- Digit run also returning how many digits were consumed
(underscores do not count). -/
def digitsCountCore : Nat → Nat → List Char → Option (Nat × Nat)
  | acc, cnt, [] => some (acc, cnt)
  | acc, cnt, c :: cs =>
    if c.isDigit then digitsCountCore (acc * 10 + (c.toNat - 48)) (cnt + 1) cs
    else if c = '_' then
      match cs with
      | d :: _ => if d.isDigit then digitsCountCore acc cnt cs else none
      | [] => none
    else none

/-- Parse a whole character list as a digit run, with digit count. -/
def parseDigitsCount : List Char → Option (Nat × Nat)
  | [] => none
  | c :: cs => if c.isDigit then digitsCountCore (c.toNat - 48) 1 cs else none

/-- Split at the first character satisfying the test, if any. -/
def splitFirst (sep : Char → Bool) : List Char → List Char × Option (List Char)
  | [] => ([], none)
  | c :: cs =>
    if sep c then ([], some cs)
    else
      let r := splitFirst sep cs
      (c :: r.1, r.2)

/-- Parse the mantissa `digits [. digits]` of a float literal, returning the
concatenated digit value and the number of fractional digits. -/
def parseMantissa (cs : List Char) : Option (Nat × Nat) :=
  match splitFirst (fun c => c = '.') cs with
  | (ip, none) => (parseDigitsCount ip).map (fun p => (p.1, 0))
  | ([], some []) => none
  | ([], some fp) => parseDigitsCount fp
  | (ip, some []) => (parseDigitsCount ip).map (fun p => (p.1, 0))
  | (ip, some fp) =>
    match parseDigitsCount ip, parseDigitsCount fp with
    | some iv, some fv => some (iv.1 * 10 ^ fv.2 + fv.1, fv.2)
    | _, _ => none

/-- Parse the exponent part (after `e`/`E`) of a float literal. -/
def parseExpPart : List Char → Option Int
  | '+' :: rest => (parseDigitsCount rest).map (fun p => (p.1 : Int))
  | '-' :: rest => (parseDigitsCount rest).map (fun p => -(p.1 : Int))
  | rest => (parseDigitsCount rest).map (fun p => (p.1 : Int))

/-- Unsigned part of `float(...)`: `inf`/`infinity`/`nan` (any case) or a
numeric literal `mantissa [e exponent]`. -/
def parseFloatMag (cs : List Char) : Option PyFloat :=
  let low := cs.map Char.toLower
  if low = "inf".data || low = "infinity".data then some (PyFloat.inf false)
  else if low = "nan".data then some PyFloat.nan
  else
    match splitFirst (fun c => c = 'e' || c = 'E') cs with
    | (mant, none) =>
      (parseMantissa mant).map (fun p => PyFloat.finite ⟨(p.1 : Int), -(p.2 : Int)⟩)
    | (mant, some ex) =>
      match parseMantissa mant, parseExpPart ex with
      | some p, some e => some (PyFloat.finite ⟨(p.1 : Int), e - (p.2 : Int)⟩)
      | _, _ => none

/-- Negate a parsed float magnitude (`-inf`; `-nan` is still `nan`). -/
def pyFloatNeg : PyFloat → PyFloat
  | PyFloat.finite d => PyFloat.finite ⟨-d.man, d.exp⟩
  | PyFloat.inf _ => PyFloat.inf true
  | PyFloat.nan => PyFloat.nan

/-- `float(s)`: strip surrounding whitespace, one optional sign, then the
unsigned magnitude. `none` models a raised `ValueError`. -/
def pyFloatParse (s : String) : Option PyFloat :=
  match pyStripList s.data with
  | '+' :: rest => parseFloatMag rest
  | '-' :: rest => (parseFloatMag rest).map pyFloatNeg
  | rest => parseFloatMag rest

/-- Strict order on exact decimals, by scaling to a common exponent. -/
def decLt (a b : Dec) : Bool :=
  let e := min a.exp b.exp
  decide (a.man * (10 : Int) ^ (a.exp - e).toNat < b.man * (10 : Int) ^ (b.exp - e).toNat)

/-- Python `num < bound` for a parsed float against a finite bound:
`nan` compares false against everything. -/
def pyLt : PyFloat → Dec → Bool
  | PyFloat.nan, _ => false
  | PyFloat.inf neg, _ => neg
  | PyFloat.finite a, b => decLt a b

/-- Python `num > bound` for a parsed float against a finite bound. -/
def pyGt : PyFloat → Dec → Bool
  | PyFloat.nan, _ => false
  | PyFloat.inf neg, _ => !neg
  | PyFloat.finite a, b => decLt b a

/-- Display of a bound inside a message (abstraction of Python's float
formatting; no claim depends on the exact rendering). -/
def decRepr (d : Dec) : String :=
  toString d.man ++ "e" ++ toString d.exp

/-! ### Regular expressions (model of a compiled `re` pattern)

A compiled pattern is modelled as a regular-expression AST with
single-character classes; `reFull` is whole-string matching via
Brzozowski derivatives, and `reStart` is `re.match` semantics: some
prefix of the input matches (anchored at position 0, not full-match). -/

inductive Regex where
  | emptyset
  | eps
  | cls (p : Char → Bool)
  | cat (r₁ r₂ : Regex)
  | alt (r₁ r₂ : Regex)
  | star (r : Regex)

/-- Does the regex accept the empty string? -/
def nullable : Regex → Bool
  | Regex.emptyset => false
  | Regex.eps => true
  | Regex.cls _ => false
  | Regex.cat r₁ r₂ => nullable r₁ && nullable r₂
  | Regex.alt r₁ r₂ => nullable r₁ || nullable r₂
  | Regex.star _ => true

/-- Brzozowski derivative with respect to one character. -/
def deriv : Regex → Char → Regex
  | Regex.emptyset, _ => Regex.emptyset
  | Regex.eps, _ => Regex.emptyset
  | Regex.cls p, c => if p c then Regex.eps else Regex.emptyset
  | Regex.cat r₁ r₂, c =>
    if nullable r₁ then Regex.alt (Regex.cat (deriv r₁ c) r₂) (deriv r₂ c)
    else Regex.cat (deriv r₁ c) r₂
  | Regex.alt r₁ r₂, c => Regex.alt (deriv r₁ c) (deriv r₂ c)
  | Regex.star r, c => Regex.cat (deriv r c) (Regex.star r)

/-- Whole-string match. -/
def reFull : Regex → List Char → Bool
  | r, [] => nullable r
  | r, c :: cs => reFull (deriv r c) cs

/-- `re.match` semantics: does some prefix of the input match? -/
def reStart : Regex → List Char → Bool
  | r, [] => nullable r
  | r, c :: cs => nullable r || reStart (deriv r c) cs

/-! ### Data model -/

/-- `Choice` dataclass: a selectable option. -/
structure Choice (α : Type) where
  value : α
  label : String
  disabled : Bool := false
  hint : String := ""
  deriving Repr, DecidableEq

/-- `ValidationResult` dataclass. -/
structure ValidationResult where
  valid : Bool
  message : String := ""
  deriving Repr, DecidableEq

/-! ### Validator library -/

namespace Validator

/-- `Validator.required`. -/
def required (value : String) : ValidationResult :=
  if value = "" || pyStrip value = "" then ⟨false, "This field is required"⟩
  else ⟨true, ""⟩

/-- `Validator.min_length(length)`. -/
def min_length (length : Nat) (value : String) : ValidationResult :=
  if value.data.length < length then
    ⟨false, "Minimum length is " ++ toString length⟩
  else ⟨true, ""⟩

/-- `Validator.max_length(length)`. -/
def max_length (length : Nat) (value : String) : ValidationResult :=
  if value.data.length > length then
    ⟨false, "Maximum length is " ++ toString length⟩
  else ⟨true, ""⟩

/-- `Validator.pattern(regex, message)`: fails iff `compiled.match(value)`
finds no match anchored at position 0. -/
def pattern (compiled : Regex) (message : String) (value : String) : ValidationResult :=
  if !(reStart compiled value.data) then ⟨false, message⟩
  else ⟨true, ""⟩

/-- One atom of the email pattern: a character class as a predicate. -/
def emailLocalChar (c : Char) : Bool :=
  c.isAlpha || c.isDigit || c = '.' || c = '_' || c = '%' || c = '+' || c = '-'

/-- Domain-label characters of the email pattern. -/
def emailDomainChar (c : Char) : Bool :=
  c.isAlpha || c.isDigit || c = '.' || c = '-'

/-- `r+` as a derived form. -/
def rplus (r : Regex) : Regex := Regex.cat r (Regex.star r)

/-- Body of the email regex
`[a-zA-Z0-9._%+-]+@[a-zA-Z0-9.-]+\.[a-zA-Z]{2,}`; the source pattern is
`^body$` used with `re.match`, which amounts to a full match of the body. -/
def emailRegex : Regex :=
  Regex.cat (rplus (Regex.cls emailLocalChar))
    (Regex.cat (Regex.cls (fun c => c = '@'))
      (Regex.cat (rplus (Regex.cls emailDomainChar))
        (Regex.cat (Regex.cls (fun c => c = '.'))
          (Regex.cat (Regex.cls Char.isAlpha) (rplus (Regex.cls Char.isAlpha))))))

/-- `Validator.email()`: the anchored pattern `^...$` under `re.match` is a
full match of `emailRegex`. -/
def email (value : String) : ValidationResult :=
  if !(reFull emailRegex value.data) then ⟨false, "Invalid email address"⟩
  else ⟨true, ""⟩

/-- `min_val is not None and num < min_val`. -/
def belowMin (num : PyFloat) : Option Dec → Bool
  | none => false
  | some m => pyLt num m

/-- `max_val is not None and num > max_val`. -/
def aboveMax (num : PyFloat) : Option Dec → Bool
  | none => false
  | some m => pyGt num m

/-- Message for a violated minimum bound. -/
def minMsgOf : Option Dec → String
  | none => ""
  | some m => "Minimum value is " ++ decRepr m

/-- Message for a violated maximum bound. -/
def maxMsgOf : Option Dec → String
  | none => ""
  | some m => "Maximum value is " ++ decRepr m

/-- `Validator.number(min_val, max_val)`: `float(value)` inside
`try/except ValueError`, then the min bound checked before the max bound. -/
def number (min_val max_val : Option Dec) (value : String) : ValidationResult :=
  match pyFloatParse value with
  | none => ⟨false, "Must be a number"⟩
  | some num =>
    if belowMin num min_val then ⟨false, minMsgOf min_val⟩
    else if aboveMax num max_val then ⟨false, maxMsgOf max_val⟩
    else ⟨true, ""⟩

end Validator

/-! ### Exception-transparent validator bodies

For the purity claim the validator bodies are replayed in an `Except`
monad in which every fallible Python operation is explicit: the only
such operation in the validator library is the `float(...)` call inside
`number`, and the source wraps it in `try/except ValueError`.  An
`Except.error` escaping one of these functions would mean an uncaught
exception. -/

/-- Python exceptions that can arise inside the validator bodies. -/
inductive PyErr where
  | valueError
  deriving Repr, DecidableEq

/-- `float(value)` as a fallible call: raises `ValueError` on parse failure. -/
def floatCall (value : String) : Except PyErr PyFloat :=
  match pyFloatParse value with
  | some f => Except.ok f
  | none => Except.error PyErr.valueError

/-- `required` body: no fallible operation occurs. -/
def requiredX (value : String) : Except PyErr ValidationResult :=
  Except.ok (Validator.required value)

/-- `min_length` body: no fallible operation occurs. -/
def min_lengthX (length : Nat) (value : String) : Except PyErr ValidationResult :=
  Except.ok (Validator.min_length length value)

/-- `max_length` body: no fallible operation occurs. -/
def max_lengthX (length : Nat) (value : String) : Except PyErr ValidationResult :=
  Except.ok (Validator.max_length length value)

/-- `pattern` body: `compiled.match` raises nothing on string input. -/
def patternX (compiled : Regex) (message : String) (value : String) :
    Except PyErr ValidationResult :=
  Except.ok (Validator.pattern compiled message value)

/-- `email` body. -/
def emailX (value : String) : Except PyErr ValidationResult :=
  Except.ok (Validator.email value)

/-- `number` body: the `try` block runs `floatCall` and the bound checks;
`except ValueError` maps the error to the "Must be a number" result. -/
def numberX (min_val max_val : Option Dec) (value : String) :
    Except PyErr ValidationResult :=
  match
    Except.bind (floatCall value) (fun num =>
      Except.ok (if Validator.belowMin num min_val then ⟨false, Validator.minMsgOf min_val⟩
        else if Validator.aboveMax num max_val then ⟨false, Validator.maxMsgOf max_val⟩
        else (⟨true, ""⟩ : ValidationResult)))
  with
  | Except.ok r => Except.ok r
  | Except.error PyErr.valueError => Except.ok ⟨false, "Must be a number"⟩

/-- The computation completed without an uncaught exception. -/
def noRaise (e : Except PyErr ValidationResult) : Prop :=
  ∃ r, e = Except.ok r

/-! ### Prompt engine

Each interactive loop of `Prompt` is embedded as a step function on one
line read from the input source.  A step either produces the call's
result (`done`), requests another read after writing the listed
diagnostic lines (`retry` — the re-rendered prompt text itself is not a
diagnostic and is not listed), or hits Python's undefined-behaviour
boundary such as indexing past the end of the choice list (`fault`).
Whole calls that need a read count or the unread remainder of the input
are embedded as functions over the list of available input lines. -/

inductive StepOutcome (α : Type) where
  | done (result : α)
  | retry (writes : List String)
  | fault
  deriving Repr, DecidableEq

namespace Prompt

/-- First failing validator of a chain, left to right (the source breaks
out of the loop at the first invalid result). -/
def firstFailure (validators : List (String → ValidationResult)) (value : String) :
    Option ValidationResult :=
  match validators with
  | [] => none
  | v :: rest =>
    let r := v value
    if r.valid then firstFailure rest value else some r

/-- One iteration of `Prompt.text` (echoed path; the password branch
delegates line acquisition to an external secure-input primitive and is
otherwise identical): default substitution on empty raw input, then the
validator chain. -/
def textStep (dflt : String) (validators : List (String → ValidationResult))
    (raw : String) : StepOutcome String :=
  let value := if raw = "" && dflt ≠ "" then dflt else raw
  match firstFailure validators value with
  | some r => StepOutcome.retry ["  ✗ " ++ r.message ++ "\n"]
  | none => StepOutcome.done value

/-- The whole `Prompt.text` retry loop over the available input lines:
returns the accepted value and how many lines were read, or `none` when
the input is exhausted (EOF, fatal for the call). -/
def textRun (dflt : String) (validators : List (String → ValidationResult)) :
    List String → Option (String × Nat)
  | [] => none
  | l :: rest =>
    match textStep dflt validators l with
    | StepOutcome.done v => some (v, 1)
    | StepOutcome.retry _ => (textRun dflt validators rest).map (fun p => (p.1, p.2 + 1))
    | StepOutcome.fault => none

/-- `Prompt.confirm`: reads exactly one line and never loops; returns the
answer and the unread remainder of the input. -/
def confirmRun (dflt : Bool) : List String → Option (Bool × List String)
  | [] => none
  | l :: rest =>
    let value := pyLower l
    if value = "" then some (dflt, rest)
    else some (value = "y" || value = "yes" || value = "true" || value = "1", rest)

/-- One iteration of the `Prompt.select` loop: empty input takes the
default choice unconditionally; otherwise a 1-based index is parsed and
checked for range and the disabled flag. -/
def selectStep {α : Type} (choices : List (Choice α)) (dflt : Nat) (value : String) :
    StepOutcome α :=
  if value = "" then
    match choices.get? dflt with
    | some c => StepOutcome.done c.value
    | none => StepOutcome.fault
  else
    match pyIntParseL value.data with
    | none => StepOutcome.retry ["  ✗ Invalid selection\n"]
    | some n =>
      if n - 1 < 0 then StepOutcome.retry ["  ✗ Invalid selection\n"]
      else
        match choices.get? (n - 1).toNat with
        | none => StepOutcome.retry ["  ✗ Invalid selection\n"]
        | some c =>
          if c.disabled then StepOutcome.retry ["  ✗ This option is disabled\n"]
          else StepOutcome.done c.value

/-- `[int(x.strip()) - 1 for x in value.split(",")]`: all-or-nothing
elaboration of the comprehension (a `ValueError` on any token discards
every token). -/
def traverseOpt {α β : Type} (f : α → Option β) : List α → Option (List β)
  | [] => some []
  | a :: as =>
    match f a, traverseOpt f as with
    | some b, some bs => some (b :: bs)
    | _, _ => none

/-- Parsed 0-based indices of one `multi_select` attempt. -/
def parseIndices (value : String) : Option (List Int) :=
  traverseOpt (fun g => (pyIntParseL (pyStripList g)).map (fun n => n - 1)) (splitComma value.data)

/-- The filtering loop of `multi_select`: keep, in typed order with
duplicates, each index that is in range with its choice not disabled. -/
def selectedOf {α : Type} (choices : List (Choice α)) (indices : List Int) : List α :=
  indices.filterMap (fun (idx : Int) =>
    if idx < 0 then none
    else
      match choices.get? idx.toNat with
      | some c => if c.disabled then none else some c.value
      | none => none)

/-- "Select at least n options" diagnostic. -/
def atLeastMsg (n : Nat) : String :=
  "  ✗ Select at least " ++ toString n ++ " options\n"

/-- "Select at most n options" diagnostic. -/
def atMostMsg (n : Nat) : String :=
  "  ✗ Select at most " ++ toString n ++ " options\n"

/-- Python truthiness of the `max_select` argument: `if max_select and ...`
is false both for `None` and for `0`. -/
def maxTruthy : Option Nat → Bool
  | none => false
  | some m => m != 0

/-- One iteration of the `Prompt.multi_select` loop. -/
def multiStep {α : Type} (choices : List (Choice α)) (min_select : Nat)
    (max_select : Option Nat) (value : String) : StepOutcome (List α) :=
  if value = "" then
    if min_select = 0 then StepOutcome.done []
    else StepOutcome.retry [atLeastMsg min_select]
  else
    match parseIndices value with
    | none => StepOutcome.retry ["  ✗ Invalid input\n"]
    | some indices =>
      if (selectedOf choices indices).length < min_select then
        StepOutcome.retry [atLeastMsg min_select]
      else if maxTruthy max_select
          && decide ((selectedOf choices indices).length > max_select.getD 0) then
        StepOutcome.retry [atMostMsg (max_select.getD 0)]
      else StepOutcome.done (selectedOf choices indices)

/-- One iteration of the `Prompt.autocomplete` loop: a line ending in a
tab is a suggestion request — the matching suggestions (if any) are
listed and the loop continues; otherwise the validator chain runs as in
`text`. -/
def autocompleteStep (suggestions : List String)
    (validators : List (String → ValidationResult)) (value : String) :
    StepOutcome String :=
  if endsWithTab value then
    let pfx := rstripTab value
    let found := suggestions.filter (fun s => pyStartsWith pfx.data s.data)
    if found.isEmpty then StepOutcome.retry []
    else StepOutcome.retry ["  Suggestions: " ++ joinComma (found.take 5) ++ "\n"]
  else
    match firstFailure validators value with
    | some r => StepOutcome.retry ["  ✗ " ++ r.message ++ "\n"]
    | none => StepOutcome.done value

end Prompt

/-! ### Spec-side definitions

These follow the wording of the specification (not the source) and are
compared with the source-derived definitions above. -/

/-- Spec wording of `re.match` success: some prefix of the input,
starting at position 0, fully matches the pattern. -/
def reMatchSpec (r : Regex) (cs : List Char) : Prop :=
  ∃ p, p <+: cs ∧ reFull r p = true

/-- Spec wording of the multi-select filter: keep, for each typed index
in order (duplicates retained), the choice's value exactly when the
0-based index lies in `[0, len(choices))` and the choice is not disabled. -/
def keptValues {α : Type} (choices : List (Choice α)) (idxs : List Int) : List α :=
  idxs.filterMap (fun (i : Int) =>
    if h : 0 ≤ i ∧ i < (choices.length : Int) then
      let c := choices.get ⟨i.toNat, by omega⟩
      if c.disabled then none else some c.value
    else none)

/-! ### Helper lemmas -/

/-- A start-anchored match succeeds iff some prefix matches fully. -/
theorem reStart_iff (cs : List Char) (r : Regex) :
    reStart r cs = true ↔ ∃ p, p <+: cs ∧ reFull r p = true := by
  induction cs generalizing r with
  | nil =>
    constructor
    · intro h
      exact ⟨[], List.nil_prefix, h⟩
    · rintro ⟨p, hp, hm⟩
      have hpn : p = [] := List.prefix_nil.mp hp
      subst hpn
      exact hm
  | cons c cs ih =>
    show (nullable r || reStart (deriv r c) cs) = true ↔ _
    rw [Bool.or_eq_true, ih (deriv r c)]
    constructor
    · rintro (h | ⟨p, hp, hm⟩)
      · exact ⟨[], ⟨c :: cs, rfl⟩, h⟩
      · obtain ⟨t, ht⟩ := hp
        exact ⟨c :: p, ⟨t, by simp [ht]⟩, hm⟩
    · rintro ⟨p, hp, hm⟩
      cases p with
      | nil => exact Or.inl hm
      | cons x q =>
        obtain ⟨t, ht⟩ := hp
        have hx : x = c := by
          have := congrArg (List.head? ·) ht
          simpa using this
        subst hx
        refine Or.inr ⟨q, ⟨t, ?_⟩, hm⟩
        have := congrArg (List.tail ·) ht
        simpa using this

/-- Lowering preserves emptiness. -/
theorem pyLower_eq_empty (l : String) : pyLower l = "" ↔ l = "" := by
  unfold pyLower
  constructor
  · intro h
    have hd : l.data.map Char.toLower = [] := congrArg String.data h
    cases l with
    | mk d =>
      cases d with
      | nil => rfl
      | cons c cs => simp at hd
  · intro h
    subst h
    rfl

/-- The source filter of `multi_select` computes the spec-side list. -/
theorem selectedOf_eq_keptValues {α : Type} (choices : List (Choice α)) (idxs : List Int) :
    Prompt.selectedOf choices idxs = keptValues choices idxs := by
  unfold Prompt.selectedOf keptValues
  congr 1
  funext i
  by_cases hneg : i < 0
  · rw [if_pos hneg, dif_neg (by omega)]
  · rw [if_neg hneg]
    by_cases hlt : i < (choices.length : Int)
    · have hnat : i.toNat < choices.length := by omega
      rw [List.get?_eq_get hnat, dif_pos ⟨by omega, hlt⟩]
    · have hle : choices.length ≤ i.toNat := by omega
      rw [List.get?_eq_none.mpr hle, dif_neg (by omega)]

/-- The replayed `number` body never lets an exception escape: its result
is the plain validator's result. -/
theorem numberX_eq (min_val max_val : Option Dec) (s : String) :
    numberX min_val max_val s = Except.ok (Validator.number min_val max_val s) := by
  unfold numberX floatCall Validator.number
  cases pyFloatParse s with
  | none => rfl
  | some f => rfl

/-! ### Claims -/

/-- C7: for every regex and message, the validator returned by
`pattern(regex, message)` returns invalid with that message exactly when
the input does not match the regex anchored at position 0; a regex that
matches only a prefix of the input still passes (match, not full-match,
semantics). -/
theorem pattern_match_semantics (r : Regex) (msg : String) (v : String) :
    (Validator.pattern r msg v = ⟨false, msg⟩ ↔ ¬ reMatchSpec r v.data) ∧
    (∀ p, p <+: v.data → reFull r p = true → Validator.pattern r msg v = ⟨true, ""⟩) := by
  have hiff : reMatchSpec r v.data ↔ reStart r v.data = true := (reStart_iff v.data r).symm
  constructor
  · cases hb : reStart r v.data with
    | true =>
      have hres : Validator.pattern r msg v = ⟨true, ""⟩ := by
        unfold Validator.pattern
        rw [hb]
        rfl
      rw [hres]
      constructor
      · intro hcontra
        exact absurd (congrArg ValidationResult.valid hcontra) (by simp)
      · intro hno
        exact absurd (hiff.mpr hb) hno
    | false =>
      have hres : Validator.pattern r msg v = ⟨false, msg⟩ := by
        unfold Validator.pattern
        rw [hb]
        rfl
      rw [hres]
      constructor
      · intro _
        intro hm
        rw [hiff.mp hm] at hb
        exact Bool.noConfusion hb
      · intro _
        rfl
  · intro p hp hm
    have hs : reStart r v.data = true := (reStart_iff v.data r).mpr ⟨p, hp, hm⟩
    unfold Validator.pattern
    rw [hs]
    rfl

/-- Witness for C7: the single-character pattern matching only the first
character of "ab" still passes. -/
theorem pattern_match_semantics_witness :
    (['a'] <+: "ab".data) ∧
    Validator.pattern (Regex.cls (fun c => c = 'a')) "Invalid format" "ab" = ⟨true, ""⟩ :=
  ⟨⟨['b'], rfl⟩,
    (pattern_match_semantics (Regex.cls (fun c => c = 'a')) "Invalid format" "ab").2
      ['a'] ⟨['b'], rfl⟩ (by decide)⟩

/-- C5: the validator returned by `number(min, max)` reports
"Must be a number" exactly on float-parse failure; otherwise the inclusive
bounds are checked with min before max, and a value inside the bounds is
valid. -/
theorem number_bounds_spec (minv maxv : Option Dec) (s : String) :
    (pyFloatParse s = none → Validator.number minv maxv s = ⟨false, "Must be a number"⟩) ∧
    (Validator.number minv maxv s = ⟨false, "Must be a number"⟩ → pyFloatParse s = none) ∧
    (∀ f, pyFloatParse s = some f →
      (∀ m, minv = some m → pyLt f m = true →
        Validator.number minv maxv s = ⟨false, "Minimum value is " ++ decRepr m⟩) ∧
      (∀ m, maxv = some m → Validator.belowMin f minv = false → pyGt f m = true →
        Validator.number minv maxv s = ⟨false, "Maximum value is " ++ decRepr m⟩) ∧
      (Validator.belowMin f minv = false → Validator.aboveMax f maxv = false →
        Validator.number minv maxv s = ⟨true, ""⟩)) := by
  refine ⟨?_, ?_, ?_⟩
  · intro h
    simp [Validator.number, h]
  · intro h
    cases hp : pyFloatParse s with
    | none => rfl
    | some f =>
      exfalso
      simp only [Validator.number, hp] at h
      by_cases h1 : Validator.belowMin f minv = true
      · rw [if_pos h1] at h
        cases minv with
        | none => simp [Validator.belowMin] at h1
        | some m =>
          have hmsg : Validator.minMsgOf (some m) = "Must be a number" :=
            congrArg ValidationResult.message h
          simp only [Validator.minMsgOf] at hmsg
          have hlen := congrArg String.length hmsg
          rw [String.length_append] at hlen
          have h17 : ("Minimum value is " : String).length = 17 := rfl
          have h16 : ("Must be a number" : String).length = 16 := rfl
          omega
      · rw [if_neg h1] at h
        by_cases h2 : Validator.aboveMax f maxv = true
        · rw [if_pos h2] at h
          cases maxv with
          | none => simp [Validator.aboveMax] at h2
          | some m =>
            have hmsg : Validator.maxMsgOf (some m) = "Must be a number" :=
              congrArg ValidationResult.message h
            simp only [Validator.maxMsgOf] at hmsg
            have hlen := congrArg String.length hmsg
            rw [String.length_append] at hlen
            have h17 : ("Maximum value is " : String).length = 17 := rfl
            have h16 : ("Must be a number" : String).length = 16 := rfl
            omega
        · rw [if_neg h2] at h
          exact absurd (congrArg ValidationResult.valid h) (by simp)
  · intro f hf
    refine ⟨?_, ?_, ?_⟩
    · intro m hm hlt
      subst hm
      have h1 : Validator.belowMin f (some m) = true := hlt
      simp [Validator.number, hf, h1, Validator.minMsgOf]
    · intro m hm h1 hgt
      subst hm
      have h2 : Validator.aboveMax f (some m) = true := hgt
      simp [Validator.number, hf, h1, h2, Validator.maxMsgOf]
    · intro h1 h2
      simp [Validator.number, hf, h1, h2]

/-- Witness for C5 at the spec's own examples with bounds `[0, 150]`. -/
theorem number_bounds_spec_witness :
    Validator.number (some ⟨0, 0⟩) (some ⟨150, 0⟩) "abc" = ⟨false, "Must be a number"⟩ ∧
    Validator.number (some ⟨0, 0⟩) (some ⟨150, 0⟩) "-1"
      = ⟨false, "Minimum value is " ++ decRepr ⟨0, 0⟩⟩ ∧
    Validator.number (some ⟨0, 0⟩) (some ⟨150, 0⟩) "200"
      = ⟨false, "Maximum value is " ++ decRepr ⟨150, 0⟩⟩ ∧
    Validator.number (some ⟨0, 0⟩) (some ⟨150, 0⟩) "42" = ⟨true, ""⟩ :=
  ⟨(number_bounds_spec (some ⟨0, 0⟩) (some ⟨150, 0⟩) "abc").1 (by decide),
    ((number_bounds_spec (some ⟨0, 0⟩) (some ⟨150, 0⟩) "-1").2.2
      (PyFloat.finite ⟨-1, 0⟩) (by decide)).1 ⟨0, 0⟩ rfl (by decide),
    ((number_bounds_spec (some ⟨0, 0⟩) (some ⟨150, 0⟩) "200").2.2
      (PyFloat.finite ⟨200, 0⟩) (by decide)).2.1 ⟨150, 0⟩ rfl (by decide) (by decide),
    ((number_bounds_spec (some ⟨0, 0⟩) (some ⟨150, 0⟩) "42").2.2
      (PyFloat.finite ⟨42, 0⟩) (by decide)).2.2 (by decide) (by decide)⟩

/-- C10: for every bound configuration, `number` applied to "nan" is
valid — the string parses as a float and NaN compares false against both
bounds, so neither check fires. -/
theorem number_nan_valid (minv maxv : Option Dec) :
    Validator.number minv maxv "nan" = ⟨true, ""⟩ := by
  have h : pyFloatParse "nan" = some PyFloat.nan := by decide
  have h1 : Validator.belowMin PyFloat.nan minv = false := by
    cases minv <;> rfl
  have h2 : Validator.aboveMax PyFloat.nan maxv = false := by
    cases maxv <;> rfl
  simp [Validator.number, h, h1, h2]

/-- C9: every validator of the library is pure and deterministic — for
every string input (the empty string included) its replayed body raises
no exception, and evaluating it twice on the same input yields identical
results. -/
theorem validators_pure_total (n₁ n₂ : Nat) (r : Regex) (msg : String)
    (minv maxv : Option Dec) (s : String) :
    noRaise (requiredX s) ∧ noRaise (min_lengthX n₁ s) ∧ noRaise (max_lengthX n₂ s) ∧
    noRaise (patternX r msg s) ∧ noRaise (emailX s) ∧ noRaise (numberX minv maxv s) ∧
    Validator.required s = Validator.required s ∧
    Validator.min_length n₁ s = Validator.min_length n₁ s ∧
    Validator.max_length n₂ s = Validator.max_length n₂ s ∧
    Validator.pattern r msg s = Validator.pattern r msg s ∧
    Validator.email s = Validator.email s ∧
    Validator.number minv maxv s = Validator.number minv maxv s :=
  ⟨⟨_, rfl⟩, ⟨_, rfl⟩, ⟨_, rfl⟩, ⟨_, rfl⟩, ⟨_, rfl⟩, ⟨_, numberX_eq minv maxv s⟩,
    rfl, rfl, rfl, rfl, rfl, rfl⟩

/-- C1: for every non-empty choices list and every valid default index,
empty input makes `select` return `choices[default_index].value` without
consulting the disabled flag — the statement holds with no assumption on
`disabled`, so it covers a disabled default choice. -/
theorem select_default_bypasses_disabled {α : Type} (choices : List (Choice α))
    (d : Nat) (h : d < choices.length) :
    Prompt.selectStep choices d "" = StepOutcome.done (choices.get ⟨d, h⟩).value := by
  unfold Prompt.selectStep
  rw [if_pos rfl, List.get?_eq_get h]

/-- Witness for C1 at a concrete disabled default choice. -/
theorem select_default_bypasses_disabled_witness :
    (2 < 3) ∧
    ((⟨"c", "C", true, ""⟩ : Choice String).disabled = true) ∧
    Prompt.selectStep
      [⟨"a", "A", false, ""⟩, ⟨"b", "B", false, ""⟩, (⟨"c", "C", true, ""⟩ : Choice String)] 2 ""
      = StepOutcome.done "c" :=
  ⟨by decide, rfl,
    select_default_bypasses_disabled
      [⟨"a", "A", false, ""⟩, ⟨"b", "B", false, ""⟩, (⟨"c", "C", true, ""⟩ : Choice String)]
      2 (by decide)⟩

/-- C6: with an empty validator chain, `text` returns exactly the first
line read (the `message` argument only affects the rendered prompt, not
the returned value), substituting the default iff the raw line is empty
and a non-empty default was supplied; exactly one line is read. -/
theorem text_no_validators_first_line (dflt l : String) (rest : List String) :
    Prompt.textRun dflt [] (l :: rest)
      = some ((if l = "" && dflt ≠ "" then dflt else l), 1) := rfl

/-- C8: `confirm` reads exactly one line (the rest of the input is left
unread) and returns the default on empty input, true exactly when the
lowercased line is in the truthy set, and false otherwise. -/
theorem confirm_one_read (dflt : Bool) (l : String) (rest : List String) :
    ∃ r : Bool, Prompt.confirmRun dflt (l :: rest) = some (r, rest) ∧
      (l = "" → r = dflt) ∧
      (l ≠ "" → (r = true ↔ pyLower l ∈ (["y", "yes", "true", "1"] : List String))) := by
  by_cases h : pyLower l = ""
  · refine ⟨dflt, ?_, fun _ => rfl, fun hne => absurd ((pyLower_eq_empty l).mp h) hne⟩
    simp [Prompt.confirmRun, h]
  · refine ⟨decide (pyLower l = "y") || decide (pyLower l = "yes")
      || decide (pyLower l = "true") || decide (pyLower l = "1"), ?_, ?_, ?_⟩
    · simp only [Prompt.confirmRun]
      rw [if_neg h]
    · intro hl
      subst hl
      exact absurd rfl h
    · intro _
      simp only [Bool.or_eq_true, decide_eq_true_eq, List.mem_cons,
        List.not_mem_nil, or_false]
      constructor
      · rintro (((h1 | h1) | h1) | h1) <;> simp [h1]
      · rintro (h1 | h1 | h1 | h1) <;> simp [h1]

/-- Witness for C8: an uppercase "YES" answer returns true. -/
theorem confirm_one_read_witness :
    Prompt.confirmRun true ["YES"] = some (true, []) := by
  obtain ⟨r, h1, _, h3⟩ := confirm_one_read true "YES" []
  have hr : r = true := (h3 (by decide)).mpr (by decide)
  rw [hr] at h1
  exact h1

/-- After a successful parse of a non-empty line, `multi_select` reduces
to the cardinality checks over the filtered selection. -/
theorem multiStep_parsed {α : Type} (choices : List (Choice α)) (minS : Nat)
    (maxS : Option Nat) (v : String) (idxs : List Int) (hv : v ≠ "")
    (hp : Prompt.parseIndices v = some idxs) :
    Prompt.multiStep choices minS maxS v =
      (if (Prompt.selectedOf choices idxs).length < minS then
        StepOutcome.retry [Prompt.atLeastMsg minS]
      else if Prompt.maxTruthy maxS
          && decide ((Prompt.selectedOf choices idxs).length > maxS.getD 0) then
        StepOutcome.retry [Prompt.atMostMsg (maxS.getD 0)]
      else StepOutcome.done (Prompt.selectedOf choices idxs)) := by
  unfold Prompt.multiStep
  rw [if_neg hv, hp]

/-- C4: a non-empty multi-select attempt whose tokens all parse yields,
when accepted, exactly the spec-side filtered list (order of typing,
duplicates retained, out-of-range and disabled indices silently
dropped); after a successful parse the only retries are cardinality
ones, while any token parse failure discards the attempt with
"Invalid input". -/
theorem multi_select_filtering {α : Type} (choices : List (Choice α)) (minS : Nat)
    (maxS : Option Nat) (v : String) (hv : v ≠ "") :
    (Prompt.parseIndices v = none →
      Prompt.multiStep choices minS maxS v = StepOutcome.retry ["  ✗ Invalid input\n"]) ∧
    (∀ idxs, Prompt.parseIndices v = some idxs →
      (∀ res, Prompt.multiStep choices minS maxS v = StepOutcome.done res →
        res = keptValues choices idxs) ∧
      (Prompt.multiStep choices minS maxS v = StepOutcome.done (keptValues choices idxs) ∨
       Prompt.multiStep choices minS maxS v = StepOutcome.retry [Prompt.atLeastMsg minS] ∨
       Prompt.multiStep choices minS maxS v
         = StepOutcome.retry [Prompt.atMostMsg (maxS.getD 0)])) := by
  constructor
  · intro hp
    unfold Prompt.multiStep
    rw [if_neg hv, hp]
  · intro idxs hp
    have key := multiStep_parsed choices minS maxS v idxs hv hp
    constructor
    · intro res hres
      rw [key] at hres
      split at hres
      · exact StepOutcome.noConfusion hres
      · split at hres
        · exact StepOutcome.noConfusion hres
        · injection hres with h2
          rw [← h2, selectedOf_eq_keptValues]
    · rw [key]
      split
      · exact Or.inr (Or.inl rfl)
      · split
        · exact Or.inr (Or.inr rfl)
        · exact Or.inl (by rw [selectedOf_eq_keptValues])

/-- Witness for C4 at the spec's example: choices `[A, B, C(disabled)]`,
bounds `[1, 2]`, input "1,3,2" — index 3 is dropped and `[A, B]` is
accepted in typed order. -/
theorem multi_select_filtering_witness :
    Prompt.parseIndices "1,3,2" = some [0, 2, 1] ∧
    Prompt.multiStep
      [⟨"a", "A", false, ""⟩, ⟨"b", "B", false, ""⟩, (⟨"c", "C", true, ""⟩ : Choice String)]
      1 (some 2) "1,3,2" = StepOutcome.done ["a", "b"] ∧
    ["a", "b"] = keptValues
      [⟨"a", "A", false, ""⟩, ⟨"b", "B", false, ""⟩, (⟨"c", "C", true, ""⟩ : Choice String)]
      [0, 2, 1] :=
  ⟨by decide, by decide,
    ((multi_select_filtering
      [⟨"a", "A", false, ""⟩, ⟨"b", "B", false, ""⟩, (⟨"c", "C", true, ""⟩ : Choice String)]
      1 (some 2) "1,3,2" (by decide)).2 [0, 2, 1] (by decide)).1 ["a", "b"] (by decide)⟩

/-- C2 counterexample: `maxSelect = 0` is a set value, and with one
surviving selection the count exceeds it, yet the attempt is accepted —
Python's `if max_select and ...` treats 0 as unset, so no maximum is
reported and no retry happens. -/
theorem multi_select_max_zero_ignored :
    Prompt.multiStep [(⟨"a", "A", false, ""⟩ : Choice String)] 0 (some 0) "1"
      = StepOutcome.done ["a"] ∧ 1 > 0 :=
  ⟨by decide, by decide⟩

/-- C2 (amended): empty input with `minSelect = 0` returns the empty
list immediately and otherwise reports the minimum; after a parsed
attempt, a surviving count below `minSelect` reports the minimum and
retries, a count above a set *and nonzero* `maxSelect` reports the
maximum and retries (a `maxSelect` of 0 is treated as unset, disabling
the maximum check), and only a count within those bounds is returned. -/
theorem multi_select_cardinality {α : Type} (choices : List (Choice α)) (minS : Nat)
    (maxS : Option Nat) (v : String) :
    (v = "" → minS = 0 → Prompt.multiStep choices minS maxS v = StepOutcome.done []) ∧
    (v = "" → minS ≠ 0 →
      Prompt.multiStep choices minS maxS v = StepOutcome.retry [Prompt.atLeastMsg minS]) ∧
    (∀ idxs, v ≠ "" → Prompt.parseIndices v = some idxs →
      ((Prompt.selectedOf choices idxs).length < minS →
        Prompt.multiStep choices minS maxS v = StepOutcome.retry [Prompt.atLeastMsg minS]) ∧
      (∀ m, maxS = some m → m ≠ 0 → minS ≤ (Prompt.selectedOf choices idxs).length →
        m < (Prompt.selectedOf choices idxs).length →
        Prompt.multiStep choices minS maxS v = StepOutcome.retry [Prompt.atMostMsg m]) ∧
      (minS ≤ (Prompt.selectedOf choices idxs).length →
        (Prompt.maxTruthy maxS = false ∨
          (Prompt.selectedOf choices idxs).length ≤ maxS.getD 0) →
        Prompt.multiStep choices minS maxS v
          = StepOutcome.done (Prompt.selectedOf choices idxs))) := by
  refine ⟨?_, ?_, ?_⟩
  · intro hv h0
    subst hv
    unfold Prompt.multiStep
    rw [if_pos rfl, if_pos h0]
  · intro hv h0
    subst hv
    unfold Prompt.multiStep
    rw [if_pos rfl, if_neg h0]
  · intro idxs hv hp
    have key := multiStep_parsed choices minS maxS v idxs hv hp
    refine ⟨?_, ?_, ?_⟩
    · intro hlt
      rw [key, if_pos hlt]
    · intro m hm hne hge hgt
      subst hm
      have hcond : (Prompt.maxTruthy (some m)
          && decide ((Prompt.selectedOf choices idxs).length > (some m).getD 0)) = true := by
        simp [Prompt.maxTruthy, hne, Option.getD]
        omega
      rw [key, if_neg (by omega), if_pos hcond]
      rfl
    · intro hge hmax
      have hcond : (Prompt.maxTruthy maxS
          && decide ((Prompt.selectedOf choices idxs).length > maxS.getD 0)) = false := by
        rcases hmax with h | h
        · simp [h]
        · simp
          omega
      rw [key, if_neg (by omega), if_neg (by simp [hcond])]

/-- Witness for C2: empty input with both bounds absent returns `[]`. -/
theorem multi_select_cardinality_witness :
    Prompt.multiStep ([] : List (Choice String)) 0 none "" = StepOutcome.done [] :=
  (multi_select_cardinality ([] : List (Choice String)) 0 none "").1 rfl rfl

/-- A retrying `text` attempt always wrote a validator message first. -/
theorem textStep_retry_msg (dflt : String) (vals : List (String → ValidationResult))
    (v : String) (w : List String)
    (h : Prompt.textStep dflt vals v = StepOutcome.retry w) : w ≠ [] := by
  unfold Prompt.textStep at h
  cases hf : Prompt.firstFailure vals (if v = "" && dflt ≠ "" then dflt else v) with
  | some r =>
    simp only [hf] at h
    cases h
    simp
  | none =>
    simp only [hf] at h
    exact StepOutcome.noConfusion h

/-- A retrying `select` attempt always wrote a diagnostic first. -/
theorem selectStep_retry_msg {α : Type} (choices : List (Choice α)) (d : Nat)
    (v : String) (w : List String)
    (h : Prompt.selectStep choices d v = StepOutcome.retry w) : w ≠ [] := by
  unfold Prompt.selectStep at h
  repeat' split at h
  all_goals first
    | (cases h; simp)
    | exact StepOutcome.noConfusion h

/-- A retrying `multi_select` attempt always wrote a diagnostic first. -/
theorem multiStep_retry_msg {α : Type} (choices : List (Choice α)) (minS : Nat)
    (maxS : Option Nat) (v : String) (w : List String)
    (h : Prompt.multiStep choices minS maxS v = StepOutcome.retry w) : w ≠ [] := by
  unfold Prompt.multiStep at h
  repeat' split at h
  all_goals first
    | (cases h; simp)
    | exact StepOutcome.noConfusion h

/-- A retrying `autocomplete` attempt wrote a diagnostic first unless it
was a suggestion request (a line ending in a tab). -/
theorem autocompleteStep_retry_msg (sugg : List String)
    (vals : List (String → ValidationResult)) (v : String) (w : List String)
    (h : Prompt.autocompleteStep sugg vals v = StepOutcome.retry w) :
    w ≠ [] ∨ endsWithTab v = true := by
  cases hb : endsWithTab v with
  | true => exact Or.inr rfl
  | false =>
    left
    unfold Prompt.autocompleteStep at h
    rw [hb] at h
    simp only [Bool.false_eq_true, if_false] at h
    cases hf : Prompt.firstFailure vals v with
    | some r =>
      simp only [hf] at h
      cases h
      simp
    | none =>
      simp only [hf] at h
      exact StepOutcome.noConfusion h

/-- C3 (amended): whenever `text`, `select` or `multi_select` re-prompts
it has first written a diagnostic (empty multi-select input with
`minSelect = 0` returns instead of retrying), and `autocomplete` does
the same for every ordinary input attempt — the remaining exception is
the autocomplete suggestion request (line ending in a tab), which
re-reads after listing matches if any exist and silently when none do. -/
theorem reprompt_always_explained {α : Type} (choices : List (Choice α))
    (dfltS : String) (dfltN minS : Nat) (maxS : Option Nat) (sugg : List String)
    (vals₁ vals₂ : List (String → ValidationResult)) (v : String) (w : List String) :
    (Prompt.textStep dfltS vals₁ v = StepOutcome.retry w → w ≠ []) ∧
    (Prompt.selectStep choices dfltN v = StepOutcome.retry w → w ≠ []) ∧
    (Prompt.multiStep choices minS maxS v = StepOutcome.retry w → w ≠ []) ∧
    (Prompt.autocompleteStep sugg vals₂ v = StepOutcome.retry w →
      w ≠ [] ∨ endsWithTab v = true) :=
  ⟨textStep_retry_msg dfltS vals₁ v w,
    selectStep_retry_msg choices dfltN v w,
    multiStep_retry_msg choices minS maxS v w,
    autocompleteStep_retry_msg sugg vals₂ v w⟩

/-- C3 counterexample: an autocomplete suggestion request whose prefix
matches no suggestion is re-read with nothing written at all — a silent
re-prompt outside the claim's single multi-select exception. -/
theorem autocomplete_silent_reprompt :
    Prompt.autocompleteStep ["alpha"] [] "z\t" = StepOutcome.retry [] := by decide

/-- Witness for C3: an empty multi-select line under `minSelect = 2`
retries with the minimum-requirement diagnostic, which is non-empty. -/
theorem reprompt_always_explained_witness :
    Prompt.multiStep ([] : List (Choice String)) 2 none ""
      = StepOutcome.retry [Prompt.atLeastMsg 2] ∧
    [Prompt.atLeastMsg 2] ≠ ([] : List String) :=
  ⟨by decide,
    (reprompt_always_explained ([] : List (Choice String)) "" 0 2 none [] [] [] ""
      [Prompt.atLeastMsg 2]).2.2.1 (by decide)⟩

end RoadPrompt
